import Mathlib

/-!
Verification development for the SysEvoV2 visual-telemetry core.

The Go backend (`src/viztel/golang`) and the TypeScript analyzers
(`src/viztel/itered`, `VirtualChannelManager`) are shallowly embedded here.
Conventions of the embedding:
* `float64` / JS `number` values are modelled as `ℚ` (the analysis code only
  adds, subtracts, multiplies, divides and compares, all exact on the inputs
  considered);
* Go `int64` is modelled as `ℤ`;
* Go maps and JS objects/Maps are modelled as association lists traversed in
  insertion order (for JS objects this is the specified enumeration order;
  for Go maps the iteration order is unspecified, and results proved below
  about the Go path do not depend on the chosen order);
* JS `Array.prototype.sort` is stable (ES2019), modelled by a stable
  insertion sort `sortK`; Go `sort.Slice` makes no stability promise, and is
  modelled by the same function, relied on only where the sorted order is
  uniquely determined (pairwise-distinct keys);
* wall-clock fields (`performance.now()`, `Date.now()`) and transport-only
  fields (user id, client ip) are not modelled.
-/

/-- OHLC metric with plain numeric fields, as in the Go `Metric` struct and
the TS `AggregatedMetric` (`-1` is the "empty" sentinel used by those two
layers). -/
structure Metric where
  o : ℚ
  h : ℚ
  l : ℚ
  c : ℚ
deriving DecidableEq, Repr

/-- OHLC metric with nullable fields, as in `VirtualChannelManager`
(`AggregatedMetric` with `null` sentinel after the Case_Sentinel_Pollution
fix). -/
structure MetricV where
  o : Option ℚ
  h : Option ℚ
  l : Option ℚ
  c : Option ℚ
deriving DecidableEq, Repr

def emptyMetricV : MetricV := ⟨none, none, none, none⟩

/-- Stable insertion step for `sortK`: the new element goes after every
element whose key is `≤` its own key. -/
def insertK {α : Type} (key : α → ℚ) (m : α) : List α → List α
  | [] => [m]
  | x :: xs => if key x ≤ key m then x :: insertK key m xs else m :: x :: xs

/-- Stable sort by a rational key (models the ES2019-stable JS
`Array.prototype.sort` with a numeric comparator; also used for Go
`sort.Slice` where the order is uniquely determined). -/
def sortK {α : Type} (key : α → ℚ) (l : List α) : List α :=
  l.foldl (fun acc m => insertK key m acc) []

/-- Substring test on character lists (models Go `strings.Contains` and is
used for the audio keyword scan): some tail of `hay` starts with `needle`. -/
def containsSub (hay needle : List Char) : Bool :=
  hay.tails.any (fun t => needle.isPrefixOf t)

/-- Go's `int64(x)` conversion from `float64` truncates toward zero. -/
def goInt64 (q : ℚ) : ℤ :=
  if q < 0 then -Rat.floor (-q) else Rat.floor q

/-- Prefix test on the character lists of two strings (Go
`strings.HasPrefix`, JS `String.prototype.startsWith`). -/
def strStartsWith (s pre : String) : Bool :=
  pre.data.isPrefixOf s.data

namespace Vcm

/-!  Embedding of `VirtualChannelManager` (src/unnamed/part_004). -/

/-- `VirtualChannelManager.updateMetric`: first sample initializes all four
fields, later samples move close unconditionally and high/low extremally.
The TS source reads `metric.h!`/`metric.l!` behind a non-null assertion; the
embedding mirrors JS coercion of `null` to `0` with `Option.getD 0` (never
reached from states produced by this very function). -/
def updateMetric (m : MetricV) (value : ℚ) : MetricV :=
  match m.o with
  | none => ⟨some value, some value, some value, some value⟩
  | some _ =>
    ⟨m.o,
     if value > m.h.getD 0 then some value else m.h,
     if value < m.l.getD 0 then some value else m.l,
     some value⟩

/-- Per-key buffer transition of `VirtualChannelManager.pushAggregated`:
empty incoming is a no-op; an empty buffer copies the incoming metric;
otherwise high/low take the extremes and close takes the incoming close,
open unchanged.  (`Math.max(b.h!, metric.h!)` again modelled with
`Option.getD 0` for the asserted fields.) -/
def mergeAggregated (buffer incoming : MetricV) : MetricV :=
  if incoming.o.isNone then buffer
  else if buffer.o.isNone then incoming
  else
    ⟨buffer.o,
     some (max (buffer.h.getD 0) (incoming.h.getD 0)),
     some (min (buffer.l.getD 0) (incoming.l.getD 0)),
     incoming.c⟩

/-- Manager state: the `signals` map, keyed by composite key
`targetId ++ ":" ++ metricKey`, in insertion order (JS `Map` preserves it).
`lastUpdateTime` (wall clock) is not modelled. -/
structure Manager where
  signals : List (List Char × MetricV)
deriving DecidableEq, Repr

def emptyManager : Manager := ⟨[]⟩

/-- Update the first binding of `k` in an association list. -/
def updateAssoc (k : List Char) (f : MetricV → MetricV) :
    List (List Char × MetricV) → List (List Char × MetricV)
  | [] => []
  | (k', v) :: rest =>
    if k' = k then (k', f v) :: rest else (k', v) :: updateAssoc k f rest

/-- `VirtualChannelManager.pushMetric`: look up or create the buffer for the
composite key, then `updateMetric` it.  A new key is appended (JS `Map.set`
appends new keys, keeps position of existing ones). -/
def pushMetric (st : Manager) (targetId metricKey : List Char) (value : ℚ) :
    Manager :=
  let key := targetId ++ ':' :: metricKey
  match st.signals.lookup key with
  | some _ => ⟨updateAssoc key (fun m => updateMetric m value) st.signals⟩
  | none => ⟨st.signals ++ [(key, updateMetric emptyMetricV value)]⟩

/-- Index of the last `':'` in a key, if any (JS `String.lastIndexOf`). -/
def lastColon : List Char → Option ℕ
  | [] => none
  | ch :: rest =>
    match lastColon rest with
    | some i => some (i + 1)
    | none => if ch = ':' then some 0 else none

/-- `VirtualChannelManager.parseCompositeKey`: split at the last `':'`;
a key without `':'` maps to metric name `"value"`. -/
def parseCompositeKey (key : List Char) : List Char × List Char :=
  match lastColon key with
  | none => (key, ['v', 'a', 'l', 'u', 'e'])
  | some i => (key.take i, key.drop (i + 1))

/-- `result[targetId][metricKey] = m` on the nested harvest result. -/
def setNested (res : List (List Char × List (List Char × MetricV)))
    (t k : List Char) (m : MetricV) :
    List (List Char × List (List Char × MetricV)) :=
  match res with
  | [] => [(t, [(k, m)])]
  | (t', inner) :: rest =>
    if t' = t then (t', inner ++ [(k, m)]) :: rest
    else (t', inner) :: setNested rest t k m

/-- `VirtualChannelManager.harvest`: walk the signals in order, skip empty
buffers, attribute each non-empty buffer via `parseCompositeKey`, and reset
it to empty.  Returns the nested snapshot and the drained state. -/
def harvest (st : Manager) :
    List (List Char × List (List Char × MetricV)) × Manager :=
  let step := fun (acc : List (List Char × List (List Char × MetricV)) ×
      List (List Char × MetricV)) (entry : List Char × MetricV) =>
    if entry.2.o.isNone then (acc.1, acc.2 ++ [entry])
    else
      let tk := parseCompositeKey entry.1
      (setNested acc.1 tk.1 tk.2 entry.2, acc.2 ++ [(entry.1, emptyMetricV)])
  let r := st.signals.foldl step ([], [])
  (r.1, ⟨r.2⟩)

end Vcm

namespace Dtr

/-!  Embedding of `DOMTelemetryRuntime.updateMetric`
(src/viztel/itered/DOMTelemetryRuntime.ts), which uses the `-1` sentinel. -/

/-- `DOMTelemetryRuntime.updateMetric`: `o === -1` means empty. -/
def updateMetric (m : Metric) (value : ℚ) : Metric :=
  if m.o = -1 then ⟨value, value, value, value⟩
  else
    ⟨m.o,
     if value > m.h then value else m.h,
     if value < m.l then value else m.l,
     value⟩

/-- `DOMTelemetryRuntime.createEmptyMetric`. -/
def createEmptyMetric : Metric := ⟨-1, -1, -1, -1⟩

end Dtr

namespace GoA

/-!  Embedding of the Go backend (src/viztel/golang/dto.go, analysis.go).
Go field names `O/H/L/C` of `Metric` are the `o/h/l/c` fields of the shared
`Metric` structure. -/

/-- `Metric.IsEmpty` for a present (non-nil) metric: `m.O == -1`. -/
def metricIsEmpty (m : Metric) : Bool := m.o = -1

/-- `Metric.Activity`: `(H - L) + |C - O|`, `0` when empty. -/
def Activity (m : Metric) : ℚ :=
  if metricIsEmpty m then 0 else (m.h - m.l) + |m.c - m.o|

/-- Go `ElementData` (`W`, `R`, `Attrs`); nil pointers/maps are `none`/`[]`. -/
structure ElementData where
  w : Option Metric
  r : Option Metric
  attrs : List (String × Metric)
deriving DecidableEq, Repr

/-- Go `TelemetryReq` (one frame); transport metadata (`UserID`,
`ClientIP`, `Duration`, `Sources`) is unused by the analysis engine and not
modelled. -/
structure TelemetryReq where
  Timestamp : ℤ
  Data : List (String × ElementData)
deriving DecidableEq, Repr

/-- Go `markerPoint`. -/
structure markerPoint where
  Name : String
  Ts : ℤ
deriving DecidableEq, Repr

/-- Go `IntervalDiagnosis`. -/
structure IntervalDiagnosis where
  Name : String
  Duration : ℤ
  InputVariance : ℚ
  OutputVariance : ℚ
  Correlation : ℚ
  Verdict : String
  Message : String
deriving DecidableEq, Repr

/-- Go `AVSyncEvent`. -/
structure AVSyncEvent where
  ActionMarker : String
  LatencyMs : ℚ
  IsSilent : Bool
  Verdict : String
deriving DecidableEq, Repr

/-- Go `AudioSyncReport`. -/
structure AudioSyncReport where
  SyncEvents : List AVSyncEvent
deriving DecidableEq, Repr

/-- Go `DiagnoseRes` (the `*AudioSyncReport` pointer is an `Option`). -/
structure DiagnoseRes where
  ScenarioID : String
  Score : ℚ
  Intervals : List IntervalDiagnosis
  AudioSync : Option AudioSyncReport
  Alerts : List String
deriving DecidableEq, Repr

/-- Go `AnalysisEngine` configuration thresholds. -/
structure AnalysisEngine where
  ThresholdInputVar : ℚ
  ThresholdOutputVar : ℚ
  ThresholdAudioPeak : ℚ
deriving DecidableEq, Repr

/-- `NewAnalysisEngine()`: defaults 0.01 / 0.001 / 0.05. -/
def NewAnalysisEngine : AnalysisEngine :=
  ⟨1 / 100, 1 / 1000, 1 / 20⟩

/-- Marker collection pass of `extractMarkers` (before sorting): each
`(name, metric)` attr of entity `"__markers__"` with `metric.C > 0` yields a
point whose timestamp is `int64(metric.C)`. -/
def collectMarkers (frames : List TelemetryReq) : List markerPoint :=
  frames.foldl
    (fun acc f =>
      match f.Data.lookup "__markers__" with
      | none => acc
      | some mData =>
        acc ++ mData.attrs.filterMap
          (fun p => if p.2.c > 0 then some ⟨p.1, goInt64 p.2.c⟩ else none))
    []

/-- `extractMarkers`: collect, then `sort.Slice` ascending by `Ts`
(`sort.Slice` promises no stability; the stable `sortK` stands in for it and
is relied on only where timestamps are pairwise distinct). -/
def extractMarkers (frames : List TelemetryReq) : List markerPoint :=
  sortK (fun p => (p.Ts : ℚ)) (collectMarkers frames)

/-- `filterFrames`: frames with `start ≤ Timestamp ≤ end`. -/
def filterFrames (frames : List TelemetryReq) (start stop : ℤ) :
    List TelemetryReq :=
  frames.filter (fun f => decide (start ≤ f.Timestamp) &&
    decide (f.Timestamp ≤ stop))

/-- `variance`: population variance, `0` for fewer than two values. -/
def variance (nums : List ℚ) : ℚ :=
  if nums.length < 2 then 0
  else
    let mean := nums.sum / (nums.length : ℚ)
    (nums.map (fun n => (n - mean) * (n - mean))).sum / (nums.length : ℚ)

/-- Per-frame accumulation inside `calculateSignalVariance`: sum of
`Activity` over the targeted entities' weight and attr metrics, with the
count of contributing metrics. -/
def frameActivitySum (targetIDs : Option (List String)) (f : TelemetryReq) :
    ℚ × ℕ :=
  f.Data.foldl
    (fun acc entry =>
      let isTarget : Bool :=
        match targetIDs with
        | none => !(strStartsWith entry.1 "__")
        | some ts => ts.any (fun t => entry.1 == t)
      if isTarget then
        let acc1 :=
          match entry.2.w with
          | some m => (acc.1 + Activity m, acc.2 + 1)
          | none => acc
        entry.2.attrs.foldl
          (fun a p => (a.1 + Activity p.2, a.2 + 1)) acc1
      else acc)
    (0, 0)

/-- `calculateSignalVariance`: one scalar per frame (`0` when no metric
contributed), then population variance.  `targetIDs = none` is Go's nil
slice, meaning auto-detected output entities (ids not starting `"__"`). -/
def calculateSignalVariance (frames : List TelemetryReq)
    (targetIDs : Option (List String)) : ℚ :=
  variance (frames.map (fun f =>
    let s := frameActivitySum targetIDs f
    if s.2 > 0 then s.1 else 0))

/-- `computeCorrelation`: the Go backend's placeholder always returns 0.5. -/
def computeCorrelation (_e : AnalysisEngine) (_frames : List TelemetryReq) :
    ℚ := 1 / 2

/-- `judgeInterval`: verdict from the two variance flags only (the Go
backend never consults the correlation). -/
def judgeInterval (e : AnalysisEngine) (d : IntervalDiagnosis) :
    IntervalDiagnosis :=
  let hasInput := d.InputVariance > e.ThresholdInputVar
  let hasOutput := d.OutputVariance > e.ThresholdOutputVar
  if hasInput ∧ ¬hasOutput then
    { d with Verdict := "NO_RESPONSE",
             Message := "Deadlock detected: Input active but Output frozen" }
  else if ¬hasInput ∧ hasOutput then
    { d with Verdict := "AUTONOMOUS", Message := "Animation or Timer active" }
  else if ¬hasInput ∧ ¬hasOutput then
    { d with Verdict := "IDLE" }
  else
    { d with Verdict := "HEALTHY" }

/-- Audio energy stream extraction in `analyzeAudioSync`: entity
`"__system__/audio"`, attr `"peak_level"` preferred over `"energy_rms"`,
taking the metric's `H`. -/
def audioStream (frames : List TelemetryReq) : List (ℤ × ℚ) :=
  frames.filterMap (fun f =>
    match f.Data.lookup "__system__/audio" with
    | none => none
    | some node =>
      match node.attrs.lookup "peak_level" with
      | some v => some (f.Timestamp, v.h)
      | none =>
        match node.attrs.lookup "energy_rms" with
        | some v => some (f.Timestamp, v.h)
        | none => none)

def criticalActions : List String :=
  ["COLLISION", "EXPLOSION", "SUCCESS", "FAIL", "CLICK"]

/-- Case-insensitive keyword scan of a marker name. -/
def markerCritical (name : String) : Bool :=
  criticalActions.any
    (fun k => containsSub (name.toList.map Char.toUpper) k.toList)

/-- Peak search of `analyzeAudioSync`: maximum `peak` (strictly improving)
over stream samples inside `[Ts, Ts+300]`, starting from
`maxEnergy = 0, peakTs = 0`. -/
def peakScan (mTs : ℤ) (stream : List (ℤ × ℚ)) : ℚ × ℤ :=
  stream.foldl
    (fun acc s =>
      if decide (s.1 ≥ mTs) && decide (s.1 ≤ mTs + 300) &&
          decide (s.2 > acc.1) then (s.2, s.1)
      else acc)
    (0, 0)

/-- One `AVSyncEvent` of `analyzeAudioSync`:
`LatencyMs = peakTs - m.Ts`, `IsSilent` iff `maxEnergy < threshold`. -/
def mkSyncEvent (e : AnalysisEngine) (m : markerPoint)
    (stream : List (ℤ × ℚ)) : AVSyncEvent :=
  let p := peakScan m.Ts stream
  let latency : ℚ := ((p.2 - m.Ts : ℤ) : ℚ)
  let silent : Bool := p.1 < e.ThresholdAudioPeak
  { ActionMarker := m.Name,
    LatencyMs := latency,
    IsSilent := silent,
    Verdict :=
      if silent then "FAIL_SILENT"
      else if latency > 200 then "FAIL_LAG"
      else "PASS" }

/-- `analyzeAudioSync`: empty report when no audio samples exist at all;
otherwise one event per causally-significant marker. -/
def analyzeAudioSync (e : AnalysisEngine) (frames : List TelemetryReq)
    (markers : List markerPoint) : AudioSyncReport :=
  if (audioStream frames).isEmpty then ⟨[]⟩
  else
    ⟨markers.filterMap (fun m =>
      if markerCritical m.Name then some (mkSyncEvent e m (audioStream frames))
      else none)⟩

/-- Alert line `fmt.Sprintf("[%s] %s: %s", Name, Verdict, Message)`. -/
def alertLine (d : IntervalDiagnosis) : String :=
  "[" ++ d.Name ++ "] " ++ d.Verdict ++ ": " ++ d.Message

/-- Body of the interval loop of `AnalyzeScenario` for one adjacent marker
pair: skip intervals shorter than 50ms, skip slices with fewer than 2
frames, otherwise judge and append the diagnosis (and an alert for
non-HEALTHY/non-IDLE verdicts). -/
def intervalStep (e : AnalysisEngine) (frames : List TelemetryReq)
    (acc : List IntervalDiagnosis × List String)
    (pr : markerPoint × markerPoint) :
    List IntervalDiagnosis × List String :=
  if pr.2.Ts - pr.1.Ts < 50 then acc
  else
    let intervalFrames := filterFrames frames pr.1.Ts pr.2.Ts
    if intervalFrames.length < 2 then acc
    else
      let d := judgeInterval e
        { Name := pr.1.Name ++ " -> " ++ pr.2.Name,
          Duration := pr.2.Ts - pr.1.Ts,
          InputVariance :=
            calculateSignalVariance intervalFrames
              (some ["__cursor__", "__input__"]),
          OutputVariance := calculateSignalVariance intervalFrames none,
          Correlation := computeCorrelation e intervalFrames,
          Verdict := "", Message := "" }
      (acc.1 ++ [d],
       acc.2 ++ (if d.Verdict ≠ "HEALTHY" ∧ d.Verdict ≠ "IDLE"
                 then [alertLine d] else []))

/-- `calculateScore`:
`Score = max(0, 100 - fails/max(1,len(Intervals)) * 50)` with `fails` the
count of NO_RESPONSE intervals plus non-PASS audio events. -/
def calculateScore (r : DiagnoseRes) : DiagnoseRes :=
  let fails : ℕ :=
    (r.Intervals.filter (fun i => i.Verdict == "NO_RESPONSE")).length +
    (match r.AudioSync with
     | none => 0
     | some a => (a.SyncEvents.filter (fun s => s.Verdict != "PASS")).length)
  let total : ℕ := if r.Intervals.length = 0 then 1 else r.Intervals.length
  { r with Score := max 0 (100 - ((fails : ℚ) / (total : ℚ)) * 50) }

/-- `AnalyzeScenario`: extract markers, run the audio-sync analysis, analyze
each adjacent marker pair, then score. -/
def AnalyzeScenario (e : AnalysisEngine) (scenarioID : String)
    (frames : List TelemetryReq) : DiagnoseRes :=
  let markers := extractMarkers frames
  let audio := analyzeAudioSync e frames markers
  let pairs := markers.zip markers.tail
  let ia := pairs.foldl (intervalStep e frames) ([], [])
  calculateScore
    { ScenarioID := scenarioID, Score := 0, Intervals := ia.1,
      AudioSync := some audio, Alerts := ia.2 }

end GoA

/-- TS `TelemetrySnapshot` element entry: optional weight, rank and attr
metrics (shared by `MarkerAlignmentAnalyzer` and `TopologyChecker`). -/
structure SnapElem where
  w : Option Metric
  r : Option Metric
  a : Option (List (String × Metric))
deriving DecidableEq, Repr

/-- TS `TelemetrySnapshot`. -/
structure Snapshot where
  ts : ℚ
  data : List (String × SnapElem)
deriving DecidableEq, Repr

namespace TsA

/-!  Embedding of `MarkerAlignmentAnalyzer`
(src/viztel/itered/MarkerAlignmentAnalyzer.ts).  JS `Math.sqrt` (needed only
by the Pearson denominator) is a parameter `sqrtQ` of the functions that
reach it; no claim below depends on its values.  The human-readable
`details` strings (number formatting) and `analyzedAt`/`meta` fields are
presentation only and not modelled. -/

/-- TS `DiagnosisType` (closed string union in the source). -/
inductive DiagnosisType where
  | HEALTHY
  | NO_RESPONSE
  | AUTONOMOUS
  | CHAOTIC
  | IDLE
  | INSUFFICIENT_DATA
deriving DecidableEq, Repr

/-- Resolved `Required<AnalysisConfig>`. -/
structure AnalysisConfig where
  inputSignals : List String
  outputSignals : List String
  correlationThreshold : ℚ
  inputVarianceThreshold : ℚ
  outputVarianceThreshold : ℚ
deriving DecidableEq, Repr

/-- The configuration built by the no-argument constructor:
`__cursor__`/`__input__` inputs, auto-detected outputs, thresholds
0.3 / 0.01 / 0.001. -/
def defaultAnalysisConfig : AnalysisConfig :=
  ⟨["__cursor__", "__input__"], [], 3 / 10, 1 / 100, 1 / 1000⟩

/-- TS `MarkerEvent` (without the unused `meta`). -/
structure MarkerEvent where
  name : String
  timestamp : ℚ
deriving DecidableEq, Repr

/-- Marker accumulation of `ingestFrame` over a frame list (`importFrames`):
for each frame in order, every `(name, metric)` entry of
`data["__markers__"].a` with `metric.c > 0` appends a marker. -/
def collectMarkers (frames : List Snapshot) : List MarkerEvent :=
  frames.foldl
    (fun acc f =>
      match f.data.lookup "__markers__" with
      | none => acc
      | some el =>
        acc ++ (el.a.getD []).filterMap
          (fun p => if p.2.c > 0 then some ⟨p.1, p.2.c⟩ else none))
    []

/-- `metricDelta`: `|h - l| + |c - o|`, `0` for the `-1`-sentinel empty. -/
def metricDelta (m : Metric) : ℚ :=
  if m.o = -1 then 0 else |m.h - m.l| + |m.c - m.o|

/-- `extractSignalSeries`: one value per frame — the mean `metricDelta` over
the selected signals' weight and attr metrics (skipping `c = -1` entries),
`0` when none contributed. -/
def extractSignalSeries (frames : List Snapshot) (signals : List String) :
    List ℚ :=
  frames.map (fun frame =>
    let s := signals.foldl
      (fun (acc : ℚ × ℕ) signalId =>
        match frame.data.lookup signalId with
        | none => acc
        | some d =>
          let acc1 :=
            match d.w with
            | some wm =>
              if wm.c ≠ -1 then (acc.1 + metricDelta wm, acc.2 + 1) else acc
            | none => acc
          (d.a.getD []).foldl
            (fun a p =>
              if p.2.c ≠ -1 then (a.1 + metricDelta p.2, a.2 + 1) else a)
            acc1)
      (0, 0)
    if s.2 > 0 then s.1 / (s.2 : ℚ) else 0)

/-- `detectOutputSignals`: ids occurring in the slice that do not start with
`"__"`, in first-occurrence order (JS `Set` insertion order). -/
def detectOutputSignals (frames : List Snapshot) : List String :=
  frames.foldl
    (fun acc f =>
      f.data.foldl
        (fun a entry =>
          if !(strStartsWith entry.1 "__") && !(a.contains entry.1)
          then a ++ [entry.1] else a)
        acc)
    []

/-- `computeVariance`: population variance, `0` for fewer than two values. -/
def computeVariance (series : List ℚ) : ℚ :=
  if series.length < 2 then 0
  else
    let mean := series.sum / (series.length : ℚ)
    (series.map (fun x => (x - mean) * (x - mean))).sum / (series.length : ℚ)

/-- `computeCorrelation`: Pearson over the common prefix of the two series,
`0` for length < 3 or a zero denominator.  `sqrtQ` stands for
`Math.sqrt`. -/
def computeCorrelation (sqrtQ : ℚ → ℚ) (seriesA seriesB : List ℚ) : ℚ :=
  let n := min seriesA.length seriesB.length
  if n < 3 then 0
  else
    let sa := seriesA.take n
    let sb := seriesB.take n
    let meanA := sa.sum / (n : ℚ)
    let meanB := sb.sum / (n : ℚ)
    let acc := (sa.zip sb).foldl
      (fun (t : ℚ × ℚ × ℚ) p =>
        (t.1 + (p.1 - meanA) * (p.2 - meanB),
         t.2.1 + (p.1 - meanA) * (p.1 - meanA),
         t.2.2 + (p.2 - meanB) * (p.2 - meanB)))
      (0, 0, 0)
    let denom := sqrtQ (acc.2.1 * acc.2.2)
    if denom = 0 then 0 else acc.1 / denom

/-- Result triple of `diagnose` (without the `details` string). -/
structure DiagnoseOut where
  diagnosis : DiagnosisType
  confidence : ℚ
deriving DecidableEq, Repr

/-- `diagnose`: the decision table over the two variance flags and the
correlation flag. -/
def diagnose (cfg : AnalysisConfig) (inputVar outputVar corr : ℚ) :
    DiagnoseOut :=
  let hasInput := inputVar > cfg.inputVarianceThreshold
  let hasOutput := outputVar > cfg.outputVarianceThreshold
  let isCorrelated := |corr| > cfg.correlationThreshold
  if ¬hasInput ∧ ¬hasOutput then ⟨.IDLE, 9 / 10⟩
  else if hasInput ∧ ¬hasOutput then ⟨.NO_RESPONSE, 95 / 100⟩
  else if ¬hasInput ∧ hasOutput then ⟨.AUTONOMOUS, 85 / 100⟩
  else if isCorrelated then
    ⟨.HEALTHY, min (95 / 100) (1 / 2 + |corr| * (1 / 2))⟩
  else ⟨.CHAOTIC, 7 / 10⟩

/-- TS `IntervalAnalysis` (without the `details` string). -/
structure IntervalAnalysis where
  startMarker : String
  endMarker : String
  startTime : ℚ
  endTime : ℚ
  duration : ℚ
  inputVariance : ℚ
  outputVariance : ℚ
  correlation : ℚ
  diagnosis : DiagnosisType
  confidence : ℚ
deriving DecidableEq, Repr

/-- `analyzeInterval`: slices `[start.timestamp, end.timestamp]`; fewer than
3 frames yields INSUFFICIENT_DATA with zero confidence and no statistics;
otherwise variances, correlation and `diagnose`. -/
def analyzeInterval (sqrtQ : ℚ → ℚ) (cfg : AnalysisConfig)
    (frames : List Snapshot) (start stop : MarkerEvent) : IntervalAnalysis :=
  let intervalFrames := frames.filter
    (fun f => decide (start.timestamp ≤ f.ts) && decide (f.ts ≤ stop.timestamp))
  if intervalFrames.length < 3 then
    { startMarker := start.name, endMarker := stop.name,
      startTime := start.timestamp, endTime := stop.timestamp,
      duration := stop.timestamp - start.timestamp,
      inputVariance := 0, outputVariance := 0, correlation := 0,
      diagnosis := .INSUFFICIENT_DATA, confidence := 0 }
  else
    let inputSeries := extractSignalSeries intervalFrames cfg.inputSignals
    let outputSignals :=
      if cfg.outputSignals.length > 0 then cfg.outputSignals
      else detectOutputSignals intervalFrames
    let outputSeries := extractSignalSeries intervalFrames outputSignals
    let iv := computeVariance inputSeries
    let ov := computeVariance outputSeries
    let corr := computeCorrelation sqrtQ inputSeries outputSeries
    let d := diagnose cfg iv ov corr
    { startMarker := start.name, endMarker := stop.name,
      startTime := start.timestamp, endTime := stop.timestamp,
      duration := stop.timestamp - start.timestamp,
      inputVariance := iv, outputVariance := ov, correlation := corr,
      diagnosis := d.diagnosis, confidence := d.confidence }

inductive AlertSeverity where
  | warning
  | critical
deriving DecidableEq, Repr

/-- TS `Alert` (without the formatted `message` string). -/
structure Alert where
  severity : AlertSeverity
  interval : String
deriving DecidableEq, Repr

structure DiagSummary where
  healthyCount : ℕ
  anomalyCount : ℕ
  overallHealth : ℚ
deriving DecidableEq, Repr

/-- TS `DiagnosisReport` (without `analyzedAt`). -/
structure DiagnosisReport where
  scenarioId : String
  totalFrames : ℕ
  intervals : List IntervalAnalysis
  summary : DiagSummary
  alerts : List Alert
deriving DecidableEq, Repr

/-- `analyze`: sort the markers (stable JS sort), analyze every adjacent
pair, alert on NO_RESPONSE (critical) and CHAOTIC (warning), summarize. -/
def analyze (sqrtQ : ℚ → ℚ) (cfg : AnalysisConfig) (frames : List Snapshot)
    (markers : List MarkerEvent) (scenarioId : String) : DiagnosisReport :=
  let sortedMarkers := sortK (fun m : MarkerEvent => m.timestamp) markers
  let pairs := sortedMarkers.zip sortedMarkers.tail
  let intervals := pairs.map (fun p => analyzeInterval sqrtQ cfg frames p.1 p.2)
  let alerts := intervals.filterMap (fun a =>
    if a.diagnosis = .NO_RESPONSE then
      some ⟨.critical, a.startMarker ++ " → " ++ a.endMarker⟩
    else if a.diagnosis = .CHAOTIC then
      some ⟨.warning, a.startMarker ++ " → " ++ a.endMarker⟩
    else none)
  let healthyCount := (intervals.filter (fun i =>
    decide (i.diagnosis = .HEALTHY) || decide (i.diagnosis = .AUTONOMOUS))).length
  let anomalyCount := (intervals.filter (fun i =>
    decide (i.diagnosis = .NO_RESPONSE) || decide (i.diagnosis = .CHAOTIC))).length
  { scenarioId := scenarioId,
    totalFrames := frames.length,
    intervals := intervals,
    summary :=
      ⟨healthyCount, anomalyCount,
       if intervals.length > 0 then (healthyCount : ℚ) / (intervals.length : ℚ)
       else 1⟩,
    alerts := alerts }

end TsA

namespace Topo

/-!  Embedding of `TopologyChecker` (src/viztel/itered/TopologyChecker.ts):
the per-frame contract check.  The `contracts`/`relations` registries, the
streak loop and the report assembly are not needed by the claims below. -/

/-- TS `ContractType` (closed string union). -/
inductive ContractType where
  | STRICT_ORDER
  | PARTIAL_ORDER
  | TOP_N
  | NEVER_BELOW
deriving DecidableEq, Repr

inductive Severity where
  | minor
  | major
  | critical
deriving DecidableEq, Repr

structure ToleranceCfg where
  frames : ℕ
  rankMargin : ℚ
deriving DecidableEq, Repr

/-- TS `RankContract`; `activeWhen` keeps only `elementVisible` (the
`condition` field is never read by the checker).  The `type` field is
`ctype` (`type` is a Lean keyword). -/
structure RankContract where
  id : String
  name : String
  expectedOrder : List String
  tolerance : ToleranceCfg
  ctype : ContractType
  activeWhen : Option String
deriving DecidableEq, Repr

/-- One entry of `TopologyViolation.violations`. -/
structure ViolationDetail where
  element : String
  expectedRank : ℤ
  actualRank : ℤ
  severity : Severity
deriving DecidableEq, Repr

/-- TS `TopologyViolation`. -/
structure TopologyViolation where
  contractId : String
  timestamp : ℚ
  frameIndex : ℕ
  expected : List String
  actual : List String
  violations : List ViolationDetail
deriving DecidableEq, Repr

/-- `extractRankMap`: `rank.close` per entity, skipping the `-1` sentinel. -/
def extractRankMap (frame : Snapshot) : List (String × ℚ) :=
  frame.data.filterMap (fun entry =>
    match entry.2.r with
    | some rm => if rm.c ≠ -1 then some (entry.1, rm.c) else none
    | none => none)

/-- `rankMap.get(id) || 999`: JS `||` also sends a rank of `0` (falsy) to
999, not just a missing entry. -/
def jsOr999 (r : Option ℚ) : ℚ :=
  match r with
  | none => 999
  | some v => if v = 0 then 999 else v

/-- JS `Array.prototype.indexOf` (first index, `-1` when missing). -/
def jsIndexOf (x : String) : List String → ℤ
  | [] => -1
  | y :: ys =>
    if y = x then 0
    else
      let r := jsIndexOf x ys
      if r = -1 then -1 else r + 1

/-- `compareOrder`: the four contract branches.  `expected` is the list of
expected entities present in the rank map, `actual` the same list sorted by
rank (as passed by `checkFrameAgainstContract`). -/
def compareOrder (expected actual : List String)
    (rankMap : List (String × ℚ)) (contract : RankContract) :
    List ViolationDetail :=
  match contract.ctype with
  | .STRICT_ORDER =>
    (List.range expected.length).filterMap (fun i =>
      let e := expected.getD i ""
      let actualIdx := jsIndexOf e actual
      if actualIdx ≠ (i : ℤ) then
        let diff := |actualIdx - (i : ℤ)|
        some ⟨e, (i : ℤ) + 1, actualIdx + 1,
              if diff > 2 then .critical else if diff > 1 then .major
              else .minor⟩
      else none)
  | .PARTIAL_ORDER =>
    (List.range (expected.length - 1)).filterMap (fun i =>
      let curr := expected.getD i ""
      let nxt := expected.getD (i + 1) ""
      let currRank := jsOr999 (rankMap.lookup curr)
      let nextRank := jsOr999 (rankMap.lookup nxt)
      if currRank > nextRank + contract.tolerance.rankMargin then
        some ⟨curr, (i : ℤ) + 1, jsIndexOf curr actual + 1, .major⟩
      else none)
  | .TOP_N =>
    (List.range (min 3 expected.length)).filterMap (fun i =>
      if actual.getD i "" ≠ expected.getD i "" then
        some ⟨expected.getD i "", (i : ℤ) + 1,
              jsIndexOf (expected.getD i "") actual + 1,
              if i = 0 then .critical else .major⟩
      else none)
  | .NEVER_BELOW =>
    (List.range expected.length).filterMap (fun i =>
      let e := expected.getD i ""
      let actualIdx := jsIndexOf e actual
      if (actualIdx : ℚ) > (i : ℚ) + contract.tolerance.rankMargin then
        some ⟨e, (i : ℤ) + 1, actualIdx + 1, .critical⟩
      else none)

/-- Present expected entities of a frame, in expected order. -/
def presentExpected (contract : RankContract) (frame : Snapshot) :
    List String :=
  contract.expectedOrder.filter
    (fun id => ((extractRankMap frame).lookup id).isSome)

/-- Rank-sorted present expected entities (JS stable sort with the
`(rankMap.get(a) || 999) - (rankMap.get(b) || 999)` comparator). -/
def actualOrder (contract : RankContract) (frame : Snapshot) : List String :=
  sortK (fun id => jsOr999 ((extractRankMap frame).lookup id))
    (presentExpected contract frame)

/-- `checkFrameAgainstContract`: `none` means the frame is compliant. -/
def checkFrameAgainstContract (contract : RankContract) (frame : Snapshot)
    (frameIndex : ℕ) : Option TopologyViolation :=
  let v := compareOrder (presentExpected contract frame)
    (actualOrder contract frame) (extractRankMap frame) contract
  if v.isEmpty then none
  else
    some { contractId := contract.id, timestamp := frame.ts,
           frameIndex := frameIndex, expected := contract.expectedOrder,
           actual := actualOrder contract frame, violations := v }

/-- `isContractActive`: with `activeWhen.elementVisible` set, the element
must be present with a weight metric whose close is positive. -/
def isContractActive (contract : RankContract) (frame : Snapshot) : Bool :=
  match contract.activeWhen with
  | none => true
  | some vid =>
    match frame.data.lookup vid with
    | none => false
    | some d =>
      match d.w with
      | none => false
      | some wm => decide (wm.c > 0)

end Topo

section SortKLemmas

variable {α : Type} (key : α → ℚ)

theorem insertK_perm (m : α) (l : List α) :
    List.Perm (insertK key m l) (m :: l) := by
  induction l with
  | nil => simp [insertK]
  | cons x xs ih =>
    simp only [insertK]
    split
    · exact (ih.cons x).trans (List.Perm.swap m x xs)
    · exact List.Perm.refl _

theorem insertK_pairwise (m : α) (l : List α)
    (h : l.Pairwise (fun a b => key a ≤ key b)) :
    (insertK key m l).Pairwise (fun a b => key a ≤ key b) := by
  induction l with
  | nil => simp [insertK]
  | cons x xs ih =>
    rcases List.pairwise_cons.mp h with ⟨hx, hxs⟩
    simp only [insertK]
    split
    · rename_i hle
      refine List.pairwise_cons.mpr ⟨?_, ih hxs⟩
      intro y hy
      rcases List.mem_cons.mp ((insertK_perm key m xs).mem_iff.mp hy) with
        h1 | h2
      · subst h1; exact hle
      · exact hx y h2
    · rename_i hle
      refine List.pairwise_cons.mpr ⟨?_, h⟩
      intro y hy
      rcases List.mem_cons.mp hy with h1 | h2
      · subst h1; exact le_of_lt (not_le.mp hle)
      · exact le_trans (le_of_lt (not_le.mp hle)) (hx y h2)

theorem sortK_fold_pairwise (l acc : List α)
    (hacc : acc.Pairwise (fun a b => key a ≤ key b)) :
    (l.foldl (fun acc m => insertK key m acc) acc).Pairwise
      (fun a b => key a ≤ key b) := by
  induction l generalizing acc with
  | nil => exact hacc
  | cons a l ih => exact ih _ (insertK_pairwise key a acc hacc)

/-- `sortK` sorts: pairwise nondecreasing keys. -/
theorem sortK_pairwise (l : List α) :
    (sortK key l).Pairwise (fun a b => key a ≤ key b) :=
  sortK_fold_pairwise key l [] (List.Pairwise.nil)

theorem sortK_fold_perm (l acc : List α) :
    List.Perm (l.foldl (fun acc m => insertK key m acc) acc) (acc ++ l) := by
  induction l generalizing acc with
  | nil => simp
  | cons a l ih =>
    have h1 := ih (insertK key a acc)
    have h2 := (insertK_perm key a acc).append_right l
    have h3 : List.Perm (a :: (acc ++ l)) (acc ++ a :: l) :=
      List.perm_middle.symm
    exact (h1.trans h2).trans (by simpa using h3)

/-- `sortK` is a permutation of the input. -/
theorem sortK_perm (l : List α) : List.Perm (sortK key l) l := by
  simpa [sortK] using sortK_fold_perm key l []

theorem filter_insertK (q : ℚ) (m : α) (l : List α)
    (h : l.Pairwise (fun a b => key a ≤ key b)) :
    (insertK key m l).filter (fun a => decide (key a = q)) =
      l.filter (fun a => decide (key a = q)) ++
        (if key m = q then [m] else []) := by
  induction l with
  | nil => by_cases hq : key m = q <;> simp [insertK, hq]
  | cons x xs ih =>
    rcases List.pairwise_cons.mp h with ⟨hx, hxs⟩
    simp only [insertK]
    split
    · rename_i hle
      by_cases hpx : key x = q <;>
        simp [List.filter_cons, hpx, ih hxs]
    · rename_i hle
      by_cases hq : key m = q
      · have hnil : (x :: xs).filter (fun a => decide (key a = q)) = [] := by
          rw [List.filter_eq_nil_iff]
          intro a ha
          have hxa : key x ≤ key a := by
            rcases List.mem_cons.mp ha with h1 | h2
            · subst h1; exact le_refl _
            · exact hx a h2
          simp only [decide_eq_true_eq]
          intro hkey
          have : key x ≤ q := hkey ▸ hxa
          exact absurd (lt_of_lt_of_le (hq ▸ not_le.mp hle) this)
            (lt_irrefl q)
        simp [List.filter_cons, hq, hnil]
      · simp [List.filter_cons, hq]

theorem sortK_fold_filter (q : ℚ) (l acc : List α)
    (hacc : acc.Pairwise (fun a b => key a ≤ key b)) :
    (l.foldl (fun acc m => insertK key m acc) acc).filter
        (fun a => decide (key a = q)) =
      acc.filter (fun a => decide (key a = q)) ++
        l.filter (fun a => decide (key a = q)) := by
  induction l generalizing acc with
  | nil => simp
  | cons a l ih =>
    have step := ih (insertK key a acc) (insertK_pairwise key a acc hacc)
    calc ((a :: l).foldl (fun acc m => insertK key m acc) acc).filter
          (fun a => decide (key a = q))
        = (l.foldl (fun acc m => insertK key m acc)
            (insertK key a acc)).filter (fun a => decide (key a = q)) := rfl
      _ = (insertK key a acc).filter (fun a => decide (key a = q)) ++
            l.filter (fun a => decide (key a = q)) := step
      _ = (acc.filter (fun a => decide (key a = q)) ++
            (if key a = q then [a] else [])) ++
            l.filter (fun a => decide (key a = q)) := by
          rw [filter_insertK key q a acc hacc]
      _ = acc.filter (fun a => decide (key a = q)) ++
            (a :: l).filter (fun a => decide (key a = q)) := by
          by_cases hq : key a = q <;>
            simp [List.filter_cons, hq, List.append_assoc]

/-- Stability of `sortK`: elements with any fixed key keep their original
relative order. -/
theorem sortK_filter (q : ℚ) (l : List α) :
    (sortK key l).filter (fun a => decide (key a = q)) =
      l.filter (fun a => decide (key a = q)) := by
  simpa [sortK] using sortK_fold_filter key q l [] (List.Pairwise.nil)

end SortKLemmas

/-- OHLC invariant for the nullable metric of `VirtualChannelManager`: all
four fields null together, or all set with `low ≤ open, close ≤ high`. -/
def metricVInv (m : MetricV) : Prop :=
  (m.o = none ∧ m.h = none ∧ m.l = none ∧ m.c = none) ∨
  (∃ vo vh vl vc : ℚ, m.o = some vo ∧ m.h = some vh ∧ m.l = some vl ∧
    m.c = some vc ∧ vl ≤ vo ∧ vo ≤ vh ∧ vl ≤ vc ∧ vc ≤ vh)

/-- OHLC invariant for the `-1`-sentinel metric of `DOMTelemetryRuntime`:
all four fields are the sentinel together (empty), or ordered. -/
def metricDInv (m : Metric) : Prop :=
  (m.o = -1 ∧ m.h = -1 ∧ m.l = -1 ∧ m.c = -1) ∨
  (m.l ≤ m.o ∧ m.o ≤ m.h ∧ m.l ≤ m.c ∧ m.c ≤ m.h)

theorem updateMetricV_inv (m : MetricV) (v : ℚ) (h : metricVInv m) :
    metricVInv (Vcm.updateMetric m v) := by
  rcases h with ⟨ho, _, _, _⟩ | ⟨vo, vh, vl, vc, ho, hh, hl, hc, h1, h2, h3, h4⟩
  · right
    refine ⟨v, v, v, v, ?_⟩
    simp [Vcm.updateMetric, ho]
  · right
    simp only [Vcm.updateMetric, ho, hh, hl, Option.getD_some]
    split_ifs <;>
      exact ⟨vo, _, _, v, rfl, rfl, rfl, rfl, by linarith, by linarith,
        by linarith, by linarith⟩

theorem updateMetricD_inv (m : Metric) (v : ℚ) (h : metricDInv m) :
    metricDInv (Dtr.updateMetric m v) := by
  by_cases ho : m.o = -1
  · right
    simp [Dtr.updateMetric, ho]
  · rcases h with ⟨h1, _, _, _⟩ | ⟨h1, h2, h3, h4⟩
    · exact absurd h1 ho
    · right
      simp only [Dtr.updateMetric, if_neg ho]
      split_ifs <;> refine ⟨?_, ?_, ?_, ?_⟩ <;> dsimp only <;> linarith

theorem foldl_updateMetricV_inv (vs : List ℚ) (m : MetricV)
    (h : metricVInv m) : metricVInv (vs.foldl Vcm.updateMetric m) := by
  induction vs generalizing m with
  | nil => exact h
  | cons v vs ih => exact ih _ (updateMetricV_inv m v h)

theorem foldl_updateMetricD_inv (vs : List ℚ) (m : Metric)
    (h : metricDInv m) : metricDInv (vs.foldl Dtr.updateMetric m) := by
  induction vs generalizing m with
  | nil => exact h
  | cons v vs ih => exact ih _ (updateMetricD_inv m v h)

/-- C2: every sequence of scalar `updateMetric` calls starting from an empty
metric preserves the OHLC invariant — the metric is empty or has all four
fields set with `low ≤ open ≤ high` and `low ≤ close ≤ high` — in both
scalar-update implementations (`VirtualChannelManager.updateMetric` with the
`null` sentinel, `DOMTelemetryRuntime.updateMetric` with the `-1`
sentinel).  Quantifying over all call sequences gives the invariant after
each call, every prefix being itself such a sequence. -/
theorem C2_update_preserves_ohlc_invariant (vs : List ℚ) :
    metricVInv (vs.foldl Vcm.updateMetric emptyMetricV) ∧
    metricDInv (vs.foldl Dtr.updateMetric Dtr.createEmptyMetric) := by
  constructor
  · exact foldl_updateMetricV_inv vs emptyMetricV (Or.inl ⟨rfl, rfl, rfl, rfl⟩)
  · exact foldl_updateMetricD_inv vs Dtr.createEmptyMetric
      (Or.inl ⟨rfl, rfl, rfl, rfl⟩)

/-- C4: merging non-empty metrics A then B into an empty buffer with
`pushAggregated`'s merge yields `high = max`, `low = min`, `close = B.close`
(and `open = A.open`); with the merge order swapped, high and low are
unchanged while close becomes `A.close`; merging an empty incoming metric
is a no-op. -/
theorem C4_mergeAggregated_empty_buffer (ao ah al ac bo bh bl bc : ℚ) :
    Vcm.mergeAggregated
        (Vcm.mergeAggregated emptyMetricV ⟨some ao, some ah, some al, some ac⟩)
        ⟨some bo, some bh, some bl, some bc⟩ =
      ⟨some ao, some (max ah bh), some (min al bl), some bc⟩ ∧
    Vcm.mergeAggregated
        (Vcm.mergeAggregated emptyMetricV ⟨some bo, some bh, some bl, some bc⟩)
        ⟨some ao, some ah, some al, some ac⟩ =
      ⟨some bo, some (max ah bh), some (min al bl), some ac⟩ ∧
    ∀ M : MetricV, Vcm.mergeAggregated M emptyMetricV = M := by
  refine ⟨?_, ?_, ?_⟩
  · simp [Vcm.mergeAggregated, emptyMetricV]
  · simp [Vcm.mergeAggregated, emptyMetricV, max_comm bh ah, min_comm bl al]
  · intro M
    simp [Vcm.mergeAggregated, emptyMetricV]

/-- C1: for an analyzed interval with input variance above 0.01 and output
variance above 0.001, the TS `diagnose` verdict is HEALTHY exactly when
`|correlation|` exceeds the 0.3 threshold and CHAOTIC exactly when it does
not; on the Go path `judgeInterval` likewise gives HEALTHY whenever both
variances exceed their thresholds, and its `computeCorrelation` placeholder
pins the correlation at 0.5, above the threshold, so the CHAOTIC case never
arises there. -/
theorem C1_decision_table_healthy_chaotic (iv ov corr : ℚ)
    (hin : iv > 1 / 100) (hout : ov > 1 / 1000) :
    ((TsA.diagnose TsA.defaultAnalysisConfig iv ov corr).diagnosis =
        TsA.DiagnosisType.HEALTHY ↔ |corr| > 3 / 10) ∧
    ((TsA.diagnose TsA.defaultAnalysisConfig iv ov corr).diagnosis =
        TsA.DiagnosisType.CHAOTIC ↔ ¬(|corr| > 3 / 10)) ∧
    (∀ d : GoA.IntervalDiagnosis, d.InputVariance > 1 / 100 →
      d.OutputVariance > 1 / 1000 →
      (GoA.judgeInterval GoA.NewAnalysisEngine d).Verdict = "HEALTHY") ∧
    (∀ (e : GoA.AnalysisEngine) (frames : List GoA.TelemetryReq),
      GoA.computeCorrelation e frames = 1 / 2 ∧
      |GoA.computeCorrelation e frames| > 3 / 10) := by
  refine ⟨?_, ?_, ?_, ?_⟩
  · simp only [TsA.diagnose, TsA.defaultAnalysisConfig]
    split_ifs with h1 h2 h3 h4
    · exact absurd hin h1.1
    · exact absurd hout h2.2
    · exact absurd hin h3.1
    · exact iff_of_true rfl h4
    · exact iff_of_false (by decide) h4
  · simp only [TsA.diagnose, TsA.defaultAnalysisConfig]
    split_ifs with h1 h2 h3 h4
    · exact absurd hin h1.1
    · exact absurd hout h2.2
    · exact absurd hin h3.1
    · exact iff_of_false (by decide) (not_not_intro h4)
    · exact iff_of_true rfl h4
  · intro d hI hO
    simp only [GoA.judgeInterval, GoA.NewAnalysisEngine]
    split_ifs with h1 h2 h3
    · exact absurd hO h1.2
    · exact absurd hI h2.1
    · exact absurd hI h3.1
    · rfl
  · intro e frames
    refine ⟨rfl, ?_⟩
    rw [show GoA.computeCorrelation e frames = 1 / 2 from rfl]
    rw [abs_of_pos (by norm_num)]
    norm_num

/-- Witness for C1 at concrete inputs: variances 1 and 1, correlation 1
(HEALTHY) and 0 (CHAOTIC). -/
theorem C1_decision_table_witness :
    (TsA.diagnose TsA.defaultAnalysisConfig 1 1 1).diagnosis =
        TsA.DiagnosisType.HEALTHY ∧
    (TsA.diagnose TsA.defaultAnalysisConfig 1 1 0).diagnosis =
        TsA.DiagnosisType.CHAOTIC := by
  constructor
  · exact (C1_decision_table_healthy_chaotic 1 1 1 (by norm_num)
      (by norm_num)).1.mpr (by rw [abs_one]; norm_num)
  · exact (C1_decision_table_healthy_chaotic 1 1 0 (by norm_num)
      (by norm_num)).2.1.mpr (by rw [abs_zero]; norm_num)

theorem analyzeAudioSync_no_markers (e : GoA.AnalysisEngine)
    (frames : List GoA.TelemetryReq) :
    GoA.analyzeAudioSync e frames [] = ⟨[]⟩ := by
  unfold GoA.analyzeAudioSync
  split <;> rfl

/-- C9: `AnalyzeScenario` on a frame list from which no markers are
extracted (in particular an empty frame list, see the witness) returns a
report with score exactly 100, no intervals, no alerts and an audio-sync
section with zero events. -/
theorem C9_no_markers_perfect_score (e : GoA.AnalysisEngine) (sid : String)
    (frames : List GoA.TelemetryReq)
    (h : GoA.extractMarkers frames = []) :
    (GoA.AnalyzeScenario e sid frames).Score = 100 ∧
    (GoA.AnalyzeScenario e sid frames).Intervals = [] ∧
    (GoA.AnalyzeScenario e sid frames).Alerts = [] ∧
    (GoA.AnalyzeScenario e sid frames).AudioSync =
      some (GoA.AudioSyncReport.mk []) := by
  have hmain : GoA.AnalyzeScenario e sid frames =
      GoA.calculateScore
        { ScenarioID := sid, Score := 0, Intervals := [],
          AudioSync := some ⟨[]⟩, Alerts := [] } := by
    unfold GoA.AnalyzeScenario
    rw [h]
    simp only [analyzeAudioSync_no_markers]
    rfl
  rw [hmain]
  unfold GoA.calculateScore
  norm_num

/-- Witness for C9: the empty frame list extracts no markers. -/
theorem C9_no_markers_witness :
    GoA.extractMarkers [] = [] ∧
    (GoA.AnalyzeScenario GoA.NewAnalysisEngine "s" []).Score = 100 :=
  ⟨rfl, (C9_no_markers_perfect_score GoA.NewAnalysisEngine "s" [] rfl).1⟩

/-- Verdict is neither HEALTHY nor IDLE (the Go alert condition). -/
def nonHealthyIdle (d : GoA.IntervalDiagnosis) : Bool :=
  decide (d.Verdict ≠ "HEALTHY" ∧ d.Verdict ≠ "IDLE")

/-- Frame at t=1000 carrying marker A and a motionless `box.x`. -/
def c7Frame1 : GoA.TelemetryReq :=
  { Timestamp := 1000,
    Data := [("__markers__", ⟨none, none, [("A", ⟨1000, 1000, 1000, 1000⟩)]⟩),
             ("box", ⟨none, none, [("x", ⟨0, 0, 0, 0⟩)]⟩)] }

/-- Frame at t=2000 carrying marker B and a moving `box.x`. -/
def c7Frame2 : GoA.TelemetryReq :=
  { Timestamp := 2000,
    Data := [("__markers__", ⟨none, none, [("B", ⟨2000, 2000, 2000, 2000⟩)]⟩),
             ("box", ⟨none, none, [("x", ⟨0, 10, 0, 10⟩)]⟩)] }

/-- C7 counterexample: a scenario with no input activity but output motion
produces an AUTONOMOUS interval, and the Go backend emits an alert for it —
refuting "no alert is ever generated for an interval whose verdict is
AUTONOMOUS". -/
theorem C7_counterexample_autonomous_alert :
    (GoA.AnalyzeScenario GoA.NewAnalysisEngine "s"
        [c7Frame1, c7Frame2]).Intervals.map GoA.IntervalDiagnosis.Verdict =
      ["AUTONOMOUS"] ∧
    (GoA.AnalyzeScenario GoA.NewAnalysisEngine "s" [c7Frame1, c7Frame2]).Alerts =
      ["[A -> B] AUTONOMOUS: Animation or Timer active"] := by
  constructor <;>
    (simp only [GoA.AnalyzeScenario, GoA.extractMarkers, GoA.collectMarkers,
      GoA.analyzeAudioSync, GoA.audioStream, GoA.intervalStep,
      GoA.filterFrames, GoA.calculateSignalVariance, GoA.frameActivitySum,
      GoA.variance, GoA.computeCorrelation, GoA.judgeInterval,
      GoA.calculateScore, GoA.alertLine, GoA.Activity, GoA.metricIsEmpty,
      GoA.NewAnalysisEngine, c7Frame1, c7Frame2, sortK, insertK, goInt64,
      Rat.floor_def', List.lookup, List.filterMap, List.filter, List.foldl,
      List.zip, List.zipWith, List.map, List.any, List.tail,
      strStartsWith, List.isPrefixOf]
     try simp
     try norm_num
     try decide)

theorem intervalStep_result (e : GoA.AnalysisEngine)
    (frames : List GoA.TelemetryReq)
    (acc : List GoA.IntervalDiagnosis × List String)
    (pr : GoA.markerPoint × GoA.markerPoint) :
    GoA.intervalStep e frames acc pr = acc ∨
    ∃ d : GoA.IntervalDiagnosis,
      GoA.intervalStep e frames acc pr =
        (acc.1 ++ [d],
         acc.2 ++ (if d.Verdict ≠ "HEALTHY" ∧ d.Verdict ≠ "IDLE"
                   then [GoA.alertLine d] else [])) := by
  unfold GoA.intervalStep
  dsimp only
  by_cases h1 : pr.2.Ts - pr.1.Ts < 50
  · rw [if_pos h1]; exact Or.inl rfl
  · rw [if_neg h1]
    by_cases h2 : (GoA.filterFrames frames pr.1.Ts pr.2.Ts).length < 2
    · rw [if_pos h2]; exact Or.inl rfl
    · rw [if_neg h2]
      exact Or.inr ⟨_, rfl⟩

theorem alert_countP_fold (e : GoA.AnalysisEngine)
    (frames : List GoA.TelemetryReq)
    (pairs : List (GoA.markerPoint × GoA.markerPoint)) :
    ∀ accI accA,
    (pairs.foldl (GoA.intervalStep e frames) (accI, accA)).2.length +
        accI.countP nonHealthyIdle =
      accA.length +
        (pairs.foldl (GoA.intervalStep e frames) (accI, accA)).1.countP
          nonHealthyIdle := by
  induction pairs with
  | nil => intro accI accA; simp
  | cons pr pairs ih =>
    intro accI accA
    rw [List.foldl_cons]
    rcases intervalStep_result e frames (accI, accA) pr with heq | ⟨d, heq⟩
    · rw [heq]; exact ih accI accA
    · rw [heq]
      have h := ih (accI ++ [d])
        (accA ++ (if d.Verdict ≠ "HEALTHY" ∧ d.Verdict ≠ "IDLE"
                  then [GoA.alertLine d] else []))
      by_cases hp : d.Verdict ≠ "HEALTHY" ∧ d.Verdict ≠ "IDLE"
      · simp only [if_pos hp, List.countP_append, List.countP_cons,
          List.countP_nil, List.length_append, List.length_cons,
          List.length_nil, nonHealthyIdle, decide_eq_true_eq, hp, if_true] at h ⊢
        omega
      · simp only [if_neg hp, List.countP_append, List.countP_cons,
          List.countP_nil, List.length_append, List.length_cons,
          List.length_nil, List.append_nil, nonHealthyIdle,
          decide_eq_true_eq, hp, if_false] at h ⊢
        omega

/-- C7 amended: in the Go backend, the number of alert lines equals the
number of intervals whose verdict is neither HEALTHY nor IDLE — so
HEALTHY and IDLE intervals never alert, but AUTONOMOUS intervals do, and
audio-sync events contribute no alert strings at all. -/
theorem C7_amended_alert_count (e : GoA.AnalysisEngine) (sid : String)
    (frames : List GoA.TelemetryReq) :
    (GoA.AnalyzeScenario e sid frames).Alerts.length =
      ((GoA.AnalyzeScenario e sid frames).Intervals.filter
        nonHealthyIdle).length := by
  unfold GoA.AnalyzeScenario
  dsimp only
  simp only [GoA.calculateScore]
  rw [← List.countP_eq_length_filter]
  have h := alert_countP_fold e frames
    ((GoA.extractMarkers frames).zip (GoA.extractMarkers frames).tail) [] []
  simpa using h

/-- Frame at t=0 whose two markers (A@100ms, B@200ms) bound an interval with
no frame inside `[100, 200]`. -/
def c3Frame : GoA.TelemetryReq :=
  { Timestamp := 0,
    Data := [("__markers__",
      ⟨none, none, [("A", ⟨100, 100, 100, 100⟩),
                    ("B", ⟨200, 200, 200, 200⟩)]⟩)] }

/-- C3 counterexample: the Go backend extracts the adjacent marker pair
A@100 → B@200 (a 100ms ≥ 50ms interval), finds fewer than 2 frames in its
slice, and silently omits the interval — the report's interval list is
empty instead of containing an INSUFFICIENT_DATA entry. -/
theorem C3_counterexample_go_omits_interval :
    GoA.extractMarkers [c3Frame] =
      [GoA.markerPoint.mk "A" 100, GoA.markerPoint.mk "B" 200] ∧
    (GoA.AnalyzeScenario GoA.NewAnalysisEngine "s" [c3Frame]).Intervals = [] := by
  constructor <;>
    (simp only [GoA.AnalyzeScenario, GoA.extractMarkers, GoA.collectMarkers,
      GoA.analyzeAudioSync, GoA.audioStream, GoA.intervalStep,
      GoA.filterFrames, GoA.calculateSignalVariance, GoA.frameActivitySum,
      GoA.variance, GoA.computeCorrelation, GoA.judgeInterval,
      GoA.calculateScore, GoA.alertLine, GoA.Activity, GoA.metricIsEmpty,
      GoA.NewAnalysisEngine, c3Frame, sortK, insertK, goInt64,
      Rat.floor_def', List.lookup, List.filterMap, List.filter, List.foldl,
      List.zip, List.zipWith, List.map, List.any, List.tail,
      strStartsWith, List.isPrefixOf]
     try simp
     try norm_num
     try decide)

/-- C3 amended: in the TS `MarkerAlignmentAnalyzer` every adjacent
sorted-marker pair is reported — an interval whose frame slice has fewer
than 3 frames gets verdict INSUFFICIENT_DATA with zero confidence, and
`analyze` emits exactly one interval per adjacent pair; the Go backend
instead omits intervals whose slice has fewer than 2 frames (see the
counterexample). -/
theorem C3_amended_insufficient_data_reported :
    (∀ (sqrtQ : ℚ → ℚ) (cfg : TsA.AnalysisConfig) (frames : List Snapshot)
       (start stop : TsA.MarkerEvent),
      (frames.filter (fun f => decide (start.timestamp ≤ f.ts) &&
        decide (f.ts ≤ stop.timestamp))).length < 3 →
      (TsA.analyzeInterval sqrtQ cfg frames start stop).diagnosis =
          TsA.DiagnosisType.INSUFFICIENT_DATA ∧
      (TsA.analyzeInterval sqrtQ cfg frames start stop).confidence = 0) ∧
    (∀ (sqrtQ : ℚ → ℚ) (cfg : TsA.AnalysisConfig) (frames : List Snapshot)
       (markers : List TsA.MarkerEvent) (sid : String),
      (TsA.analyze sqrtQ cfg frames markers sid).intervals.length =
        markers.length - 1) := by
  constructor
  · intro sqrtQ cfg frames start stop h
    unfold TsA.analyzeInterval
    dsimp only
    rw [if_pos h]
    exact ⟨rfl, rfl⟩
  · intro sqrtQ cfg frames markers sid
    unfold TsA.analyze
    dsimp only
    rw [List.length_map, List.length_zip, List.length_tail]
    have hlen := (sortK_perm (fun m : TsA.MarkerEvent => m.timestamp)
      markers).length_eq
    omega

/-- Witness for C3's amended theorem: an empty frame slice (0 < 3 frames)
yields an INSUFFICIENT_DATA interval with zero confidence. -/
theorem C3_amended_witness :
    (TsA.analyzeInterval (fun q => q) TsA.defaultAnalysisConfig []
        (TsA.MarkerEvent.mk "A" 0) (TsA.MarkerEvent.mk "B" 1000)).diagnosis =
      TsA.DiagnosisType.INSUFFICIENT_DATA ∧
    (TsA.analyzeInterval (fun q => q) TsA.defaultAnalysisConfig []
        (TsA.MarkerEvent.mk "A" 0) (TsA.MarkerEvent.mk "B" 1000)).confidence =
      0 :=
  C3_amended_insufficient_data_reported.1 (fun q => q)
    TsA.defaultAnalysisConfig [] (TsA.MarkerEvent.mk "A" 0)
    (TsA.MarkerEvent.mk "B" 1000) (by decide)

/-- Frame at t=0 carrying the causally-significant marker CLICK@1000ms. -/
def c6FrameM : GoA.TelemetryReq :=
  { Timestamp := 0,
    Data := [("__markers__",
      ⟨none, none, [("CLICK", ⟨1000, 1000, 1000, 1000⟩)]⟩)] }

/-- Audio frame at t=100 (outside the CLICK marker's `[1000, 1300]` search
window) so that the audio stream is non-empty but the window is. -/
def c6FrameA : GoA.TelemetryReq :=
  { Timestamp := 100,
    Data := [("__system__/audio",
      ⟨none, none, [("peak_level", ⟨1/2, 1/2, 1/2, 1/2⟩)]⟩)] }

/-- C6: when no audio sample falls in the marker's search window, the Go
`analyzeAudioSync` records `IsSilent = true` as the claim says, but
`LatencyMs = 0 - marker.Ts = -1000`, not 0 — the `peakTs` sentinel `0` is
subtracted as if it were a real peak timestamp. -/
theorem C6_code_bug_negative_latency :
    (GoA.analyzeAudioSync GoA.NewAnalysisEngine [c6FrameM, c6FrameA]
        (GoA.extractMarkers [c6FrameM, c6FrameA])).SyncEvents =
      [GoA.AVSyncEvent.mk "CLICK" (-1000) true "FAIL_SILENT"] := by
  simp only [GoA.analyzeAudioSync, GoA.audioStream, GoA.extractMarkers,
    GoA.collectMarkers, GoA.markerCritical, GoA.criticalActions,
    GoA.peakScan, GoA.mkSyncEvent, GoA.NewAnalysisEngine, c6FrameM, c6FrameA,
    sortK, insertK, goInt64, Rat.floor_def', containsSub, List.lookup,
    List.filterMap, List.filter, List.foldl, List.tails, List.any,
    List.isPrefixOf, List.map, strStartsWith]
  try simp
  try norm_num
  try decide

/-- Four frames whose markers fire (in insertion order) at timestamps
50, 10, 10, 30. -/
def c5Frames : List Snapshot :=
  [⟨0, [("__markers__", ⟨none, none, some [("M1", ⟨50, 50, 50, 50⟩)]⟩)]⟩,
   ⟨1, [("__markers__", ⟨none, none, some [("M2", ⟨10, 10, 10, 10⟩)]⟩)]⟩,
   ⟨2, [("__markers__", ⟨none, none, some [("M3", ⟨10, 10, 10, 10⟩)]⟩)]⟩,
   ⟨3, [("__markers__", ⟨none, none, some [("M4", ⟨30, 30, 30, 30⟩)]⟩)]⟩]

/-- C5: the markers collected from the frames (the `(name, metric)` attrs of
`"__markers__"` with `close > 0`, in frame/insertion order) come back from
the analyzer's sort (stable ES2019 `Array.sort`) as a permutation of the
collected list, sorted ascending by timestamp, with each equal-timestamp
sublist — hence the original relative order of equal timestamps —
preserved; in particular markers inserted at `[50, 10, 10, 30]` come back
as `[10, 10, 30, 50]` with the two 10s in original order. -/
theorem C5_extractMarkers_sorted_stable :
    (∀ frames : List Snapshot,
      (sortK (fun m : TsA.MarkerEvent => m.timestamp)
          (TsA.collectMarkers frames)).Pairwise
        (fun a b => a.timestamp ≤ b.timestamp) ∧
      List.Perm
        (sortK (fun m : TsA.MarkerEvent => m.timestamp)
          (TsA.collectMarkers frames))
        (TsA.collectMarkers frames) ∧
      ∀ q : ℚ,
        (sortK (fun m : TsA.MarkerEvent => m.timestamp)
            (TsA.collectMarkers frames)).filter
          (fun m => decide (m.timestamp = q)) =
        (TsA.collectMarkers frames).filter
          (fun m => decide (m.timestamp = q))) ∧
    TsA.collectMarkers c5Frames =
      [TsA.MarkerEvent.mk "M1" 50, TsA.MarkerEvent.mk "M2" 10,
       TsA.MarkerEvent.mk "M3" 10, TsA.MarkerEvent.mk "M4" 30] ∧
    sortK (fun m : TsA.MarkerEvent => m.timestamp)
        (TsA.collectMarkers c5Frames) =
      [TsA.MarkerEvent.mk "M2" 10, TsA.MarkerEvent.mk "M3" 10,
       TsA.MarkerEvent.mk "M4" 30, TsA.MarkerEvent.mk "M1" 50] := by
  refine ⟨fun frames => ⟨?_, ?_, ?_⟩, ?_, ?_⟩
  · exact sortK_pairwise _ _
  · exact sortK_perm _ _
  · exact fun q => sortK_filter _ q _
  · simp only [TsA.collectMarkers, c5Frames, List.lookup, List.foldl,
      List.filterMap, Option.getD]
    try simp
    try norm_num
  · simp only [TsA.collectMarkers, c5Frames, List.lookup, List.foldl,
      List.filterMap, Option.getD, sortK, insertK]
    try simp
    try norm_num

/-- TOP_N contract over the single entity `"a"` with `marginOrN`
(`rankMargin`) 1 and no activation condition. -/
def c8Contract : Topo.RankContract :=
  { id := "c8", name := "c8", expectedOrder := ["a"],
    tolerance := ⟨2, 1⟩, ctype := Topo.ContractType.TOP_N,
    activeWhen := none }

/-- Frame in which `"a"` has rank 5 (well outside the top 1). -/
def c8Frame : Snapshot :=
  ⟨0, [("a", ⟨none, some ⟨5, 5, 5, 5⟩, none⟩)]⟩

/-- C8 counterexample: the contract is active, `"a"` has rank 5 > marginOrN
= 1, yet `checkFrameAgainstContract` reports the frame compliant — the
TOP_N branch never compares the rank value against `marginOrN`, refuting
"compliant iff first expected entity's rank ≤ marginOrN". -/
theorem C8_counterexample_topn_margin_ignored :
    Topo.isContractActive c8Contract c8Frame = true ∧
    (Topo.extractRankMap c8Frame).lookup "a" = some 5 ∧
    ¬((5 : ℚ) ≤ c8Contract.tolerance.rankMargin) ∧
    Topo.checkFrameAgainstContract c8Contract c8Frame 0 = none := by
  refine ⟨rfl, ?_, ?_, ?_⟩
  · simp only [Topo.extractRankMap, c8Frame, List.filterMap, List.lookup]
    try simp
    try norm_num
  · simp only [c8Contract]
    norm_num
  · simp only [Topo.checkFrameAgainstContract, Topo.compareOrder,
      Topo.presentExpected, Topo.actualOrder, Topo.extractRankMap,
      Topo.jsOr999, Topo.jsIndexOf, c8Contract, c8Frame, sortK, insertK,
      List.filterMap, List.filter, List.lookup, List.foldl, List.range]
    try simp
    try norm_num
    try decide

/-- C8 amended: under a TOP_N contract the checker compares the first
`min(3, k)` rank-sorted present expected entities positionally with the
expected order (`k` = number of expected entities that have a rank);
`marginOrN` is never consulted — compliance is invariant under changing it —
and a TOP_N contract with a single present expected entity is compliant
regardless of that entity's rank value. -/
theorem C8_amended_topn_positional (c : Topo.RankContract) (frame : Snapshot)
    (i : ℕ) (hc : c.ctype = Topo.ContractType.TOP_N) :
    (∀ margin : ℚ,
      Topo.checkFrameAgainstContract
        { c with tolerance := ⟨c.tolerance.frames, margin⟩ } frame i =
      Topo.checkFrameAgainstContract c frame i) ∧
    (∀ onlyId : String, Topo.presentExpected c frame = [onlyId] →
      Topo.checkFrameAgainstContract c frame i = none) := by
  constructor
  · intro margin
    simp only [Topo.checkFrameAgainstContract, Topo.compareOrder,
      Topo.presentExpected, Topo.actualOrder, hc]
  · intro onlyId hpe
    simp only [Topo.checkFrameAgainstContract, Topo.compareOrder,
      Topo.actualOrder, hpe, hc, sortK, insertK, List.foldl]
    simp

/-- Witness for C8's amended theorem at the concrete contract and frame of
the counterexample: margin-invariance and single-entity compliance both
instantiate. -/
theorem C8_amended_witness :
    Topo.checkFrameAgainstContract
        { c8Contract with tolerance := ⟨c8Contract.tolerance.frames, 99⟩ }
        c8Frame 0 =
      Topo.checkFrameAgainstContract c8Contract c8Frame 0 ∧
    Topo.checkFrameAgainstContract c8Contract c8Frame 0 = none := by
  constructor
  · exact (C8_amended_topn_positional c8Contract c8Frame 0 rfl).1 99
  · refine (C8_amended_topn_positional c8Contract c8Frame 0 rfl).2 "a" ?_
    simp only [Topo.presentExpected, Topo.extractRankMap, c8Contract,
      c8Frame, List.filterMap, List.filter, List.lookup]
    try simp
    try norm_num

theorem lastColon_eq_none (l : List Char) (h : ':' ∉ l) :
    Vcm.lastColon l = none := by
  induction l with
  | nil => rfl
  | cons c cs ih =>
    have hc : ¬(c = ':') := fun hh => h (hh ▸ List.mem_cons_self c cs)
    have hcs : ':' ∉ cs := fun hh => h (List.mem_cons_of_mem c hh)
    simp [Vcm.lastColon, ih hcs, hc]

theorem lastColon_append (t k : List Char) (hk : ':' ∉ k) :
    Vcm.lastColon (t ++ ':' :: k) = some t.length := by
  induction t with
  | nil => simp [Vcm.lastColon, lastColon_eq_none k hk]
  | cons c cs ih => simp [Vcm.lastColon, ih]

/-- `parseCompositeKey` inverts composite-key construction whenever the
metric key holds no `':'`, splitting at the **last** colon even when the
target id itself holds colons. -/
theorem parseCompositeKey_append (t k : List Char) (hk : ':' ∉ k) :
    Vcm.parseCompositeKey (t ++ ':' :: k) = (t, k) := by
  simp only [Vcm.parseCompositeKey, lastColon_append t k hk]
  rw [Prod.mk.injEq]
  constructor
  · exact List.take_left t (':' :: k)
  · rw [List.append_cons]
    have : (t ++ [':']).length = t.length + 1 := by simp
    rw [← this]
    exact List.drop_left (t ++ [':']) k

theorem updateMetricV_o_isSome (m : MetricV) (v : ℚ) :
    (Vcm.updateMetric m v).o.isSome := by
  cases ho : m.o <;> simp [Vcm.updateMetric, ho]

theorem foldl_updateMetricV_o_isSome (vs : List ℚ) (m : MetricV)
    (h : m.o.isSome) : (vs.foldl Vcm.updateMetric m).o.isSome := by
  induction vs generalizing m with
  | nil => exact h
  | cons v vs ih => exact ih _ (updateMetricV_o_isSome m v)

theorem pushMetric_first (t k : List Char) (v : ℚ) :
    Vcm.pushMetric Vcm.emptyManager t k v =
      ⟨[(t ++ ':' :: k, Vcm.updateMetric emptyMetricV v)]⟩ := by
  simp [Vcm.pushMetric, Vcm.emptyManager, List.lookup]

theorem pushMetric_existing (t k : List Char) (m : MetricV) (v : ℚ) :
    Vcm.pushMetric ⟨[(t ++ ':' :: k, m)]⟩ t k v =
      ⟨[(t ++ ':' :: k, Vcm.updateMetric m v)]⟩ := by
  simp [Vcm.pushMetric, Vcm.updateAssoc, List.lookup]

theorem pushMetric_fold_single (t k : List Char) (vs : List ℚ)
    (m : MetricV) :
    vs.foldl (fun s v => Vcm.pushMetric s t k v)
        (⟨[(t ++ ':' :: k, m)]⟩ : Vcm.Manager) =
      ⟨[(t ++ ':' :: k, vs.foldl Vcm.updateMetric m)]⟩ := by
  induction vs generalizing m with
  | nil => rfl
  | cons v vs ih =>
    rw [List.foldl_cons, pushMetric_existing, ih, List.foldl_cons]

theorem harvest_single (key t k : List Char) (m : MetricV)
    (hsome : m.o.isSome) (hp : Vcm.parseCompositeKey key = (t, k)) :
    Vcm.harvest ⟨[(key, m)]⟩ =
      ([(t, [(k, m)])], ⟨[(key, emptyMetricV)]⟩) := by
  obtain ⟨x, hx⟩ := Option.isSome_iff_exists.mp hsome
  simp [Vcm.harvest, Vcm.setNested, hp, hx]

/-- C10: pushing a non-empty sequence of values for `(targetId, metricKey)`
through `pushMetric` on a fresh channel and harvesting yields exactly
`result[targetId][metricKey] = the OHLC aggregation of the pushed values`,
for every `metricKey` without `':'` — including targetIds that themselves
contain `':'`, since `parseCompositeKey` splits at the last colon. -/
theorem C10_push_harvest_roundtrip (t k : List Char) (vs : List ℚ)
    (hk : ':' ∉ k) (hvs : vs ≠ []) :
    (Vcm.harvest (vs.foldl (fun s v => Vcm.pushMetric s t k v)
        Vcm.emptyManager)).1 =
      [(t, [(k, vs.foldl Vcm.updateMetric emptyMetricV)])] := by
  cases vs with
  | nil => exact absurd rfl hvs
  | cons v vs =>
    rw [List.foldl_cons, pushMetric_first, pushMetric_fold_single]
    rw [harvest_single (t ++ ':' :: k) t k _
      (foldl_updateMetricV_o_isSome vs _ (updateMetricV_o_isSome _ v))
      (parseCompositeKey_append t k hk)]
    rw [List.foldl_cons]

/-- Witness for C10: targetId `"a:b"` (containing a colon), metricKey
`"c"`, values `[3, 1]` — the harvested metric is `o=3, h=3, l=1, c=1`
attributed to exactly `result["a:b"]["c"]`. -/
theorem C10_push_harvest_witness :
    (Vcm.harvest (([3, 1] : List ℚ).foldl
        (fun s v => Vcm.pushMetric s ['a', ':', 'b'] ['c'] v)
        Vcm.emptyManager)).1 =
      [(['a', ':', 'b'], [(['c'],
        MetricV.mk (some 3) (some 3) (some 1) (some 1))])] := by
  have h := C10_push_harvest_roundtrip ['a', ':', 'b'] ['c'] [3, 1]
    (by decide) (by decide)
  rw [h]
  norm_num [List.foldl, Vcm.updateMetric, emptyMetricV]
